import Mathlib

/-!
Shallow embedding of the paper-trading simulator
(`paper_trading_bot.py`, class `PaperTradingBot`) and proofs of the
specification's claims about it.

Modelling conventions:
* Python floats (balances, quantities, prices) are embedded as exact
  rationals `ℚ`.
* The price oracle (`get_current_price`, network I/O with a static
  fallback) is external: each call site receives the oracle's answer
  `current_price` as an explicit argument.
* The `positions` dict is a total function `String → ℚ`; `d.get(k, 0)`
  is plain application and `d[k] = v` is a pointwise update, mirroring
  the source's use of `.get(symbol, 0)`.
* The console output of `place_market_order` distinguishes the four
  branches (buy executed / insufficient balance / sell executed /
  insufficient position); it is modelled by the emitted `MarketDiag`.
* Timestamps are omitted (real time).
-/

/-- Python's `str.upper()` as used on the bot's `symbol` and `side`
arguments (ASCII identifiers): uppercases each character. -/
def String.upper (s : String) : String := ⟨s.data.map Char.toUpper⟩

namespace PaperTrading

/-- Status values that appear in the `status` field of the order dicts
built by `place_market_order` and `place_limit_order`. -/
inductive OrderStatus
| NEW
| FILLED
| REJECTED
deriving DecidableEq, Repr

/-- The `type` field of an order dict. -/
inductive OrderType
| MARKET
| LIMIT
deriving DecidableEq, Repr

/-- The order dict assembled by the two order-placement methods.
Fields present only in one of the two dict shapes are `Option`s:
`total_cost` only in market orders, `current_market_price` and
`filled_price` only in limit orders. -/
structure Order where
  orderId : ℕ
  symbol : String
  side : String
  type : OrderType
  quantity : ℚ
  price : ℚ
  total_cost : Option ℚ
  current_market_price : Option ℚ
  filled_price : Option ℚ
  status : OrderStatus
deriving DecidableEq, Repr

/-- The console message printed by `place_market_order`, one per branch. -/
inductive MarketDiag
| buyExecuted
| insufficientBalance
| sellExecuted
| insufficientPosition
deriving DecidableEq, Repr

/-- Mutable state of `PaperTradingBot`: `balance`, `positions`,
`orders`, `order_id_counter`. -/
structure PaperTradingBot where
  balance : ℚ
  positions : String → ℚ
  orders : List Order
  order_id_counter : ℕ

/-- `__init__`: $10,000 balance, empty positions and order log,
counter starting at 1. -/
def PaperTradingBot.init : PaperTradingBot :=
  { balance := 10000
    positions := fun _ => 0
    orders := []
    order_id_counter := 1 }

/-- `self.positions[symbol] = v` — pointwise dict update. -/
def dictSet (m : String → ℚ) (k : String) (v : ℚ) : String → ℚ :=
  fun s => if s = k then v else m s

/-- Lines 88–89 / 130–131: `self.orders.append(order)` followed by
`self.order_id_counter += 1`. -/
def log_order (bot : PaperTradingBot) (o : Order) : PaperTradingBot :=
  { bot with orders := bot.orders ++ [o], order_id_counter := bot.order_id_counter + 1 }

/-- `place_market_order(self, symbol, side, quantity)` with the oracle's
answer `current_price` passed explicitly.  Returns the order dict, the
printed diagnostic, and the updated bot state. -/
def place_market_order (bot : PaperTradingBot) (symbol side : String)
    (quantity current_price : ℚ) : Order × MarketDiag × PaperTradingBot :=
  let total_cost := quantity * current_price
  let order : Order :=
    { orderId := bot.order_id_counter
      symbol := symbol.upper
      side := side.upper
      type := OrderType.MARKET
      quantity := quantity
      price := current_price
      total_cost := some total_cost
      current_market_price := none
      filled_price := none
      status := OrderStatus.FILLED }
  if side.upper = "BUY" then
    if bot.balance ≥ total_cost then
      let bot' := { bot with
        balance := bot.balance - total_cost
        positions := dictSet bot.positions symbol (bot.positions symbol + quantity) }
      (order, MarketDiag.buyExecuted, log_order bot' order)
    else
      let order' := { order with status := OrderStatus.REJECTED }
      (order', MarketDiag.insufficientBalance, log_order bot order')
  else
    let current_position := bot.positions symbol
    if current_position ≥ quantity then
      let bot' := { bot with
        balance := bot.balance + total_cost
        positions := dictSet bot.positions symbol (current_position - quantity) }
      (order, MarketDiag.sellExecuted, log_order bot' order)
    else
      let order' := { order with status := OrderStatus.REJECTED }
      (order', MarketDiag.insufficientPosition, log_order bot order')

/-- `place_limit_order(self, symbol, side, quantity, price)` with the
oracle's answer `current_price` passed explicitly. -/
def place_limit_order (bot : PaperTradingBot) (symbol side : String)
    (quantity price current_price : ℚ) : Order × PaperTradingBot :=
  let order : Order :=
    { orderId := bot.order_id_counter
      symbol := symbol.upper
      side := side.upper
      type := OrderType.LIMIT
      quantity := quantity
      price := price
      total_cost := none
      current_market_price := some current_price
      filled_price := none
      status := OrderStatus.NEW }
  if (side.upper = "BUY" ∧ price ≥ current_price) ∨
     (side.upper = "SELL" ∧ price ≤ current_price) then
    let order := { order with status := OrderStatus.FILLED, filled_price := some current_price }
    let total_cost := quantity * current_price
    if side.upper = "BUY" ∧ bot.balance ≥ total_cost then
      let bot' := { bot with
        balance := bot.balance - total_cost
        positions := dictSet bot.positions symbol (bot.positions symbol + quantity) }
      (order, log_order bot' order)
    else if side.upper = "SELL" ∧ bot.positions symbol ≥ quantity then
      let bot' := { bot with
        balance := bot.balance + total_cost
        positions := dictSet bot.positions symbol (bot.positions symbol - quantity) }
      (order, log_order bot' order)
    else
      let order' := { order with status := OrderStatus.REJECTED }
      (order', log_order bot order')
  else
    (order, log_order bot order)

/-- A submission through the session façade: either a market order or a
limit order, carrying the price the oracle reports for that call. -/
inductive Request
| market (symbol side : String) (quantity current_price : ℚ)
| limit (symbol side : String) (quantity price current_price : ℚ)
deriving DecidableEq, Repr

/-- State transition of one submission. -/
def stepBot (bot : PaperTradingBot) : Request → PaperTradingBot
| Request.market sym side q p => (place_market_order bot sym side q p).2.2
| Request.limit sym side q lp p => (place_limit_order bot sym side q lp p).2

/-- Process a sequence of submissions in order. -/
def runBot (bot : PaperTradingBot) : List Request → PaperTradingBot
| [] => bot
| r :: rs => runBot (stepBot bot r) rs

/-- Quantity carried by a request. -/
def Request.qty : Request → ℚ
| Request.market _ _ q _ => q
| Request.limit _ _ q _ _ => q

/-- Oracle price carried by a request. -/
def Request.oracle : Request → ℚ
| Request.market _ _ _ p => p
| Request.limit _ _ _ _ p => p

/-- The market-order dict as built at lines 47–57, with a given final
status. -/
def marketOrderRec (bot : PaperTradingBot) (symbol side : String) (q p : ℚ)
    (st : OrderStatus) : Order :=
  { orderId := bot.order_id_counter, symbol := symbol.upper, side := side.upper,
    type := OrderType.MARKET, quantity := q, price := p, total_cost := some (q * p),
    current_market_price := none, filled_price := none, status := st }

/-- The limit-order dict as built at lines 96–106, with a given final
status and `filled_price` field. -/
def limitOrderRec (bot : PaperTradingBot) (symbol side : String) (q lp p : ℚ)
    (st : OrderStatus) (fp : Option ℚ) : Order :=
  { orderId := bot.order_id_counter, symbol := symbol.upper, side := side.upper,
    type := OrderType.LIMIT, quantity := q, price := lp, total_cost := none,
    current_market_price := some p, filled_price := fp, status := st }

theorem BUY_ne_SELL : ("BUY" : String) ≠ "SELL" := by decide

theorem SELL_ne_BUY : ("SELL" : String) ≠ "BUY" := by decide

theorem market_buy_fill (bot : PaperTradingBot) (symbol side : String) (q p : ℚ)
    (hside : side.upper = "BUY") (hb : bot.balance ≥ q * p) :
    place_market_order bot symbol side q p =
      (marketOrderRec bot symbol side q p OrderStatus.FILLED,
       MarketDiag.buyExecuted,
       { balance := bot.balance - q * p,
         positions := dictSet bot.positions symbol (bot.positions symbol + q),
         orders := bot.orders ++ [marketOrderRec bot symbol side q p OrderStatus.FILLED],
         order_id_counter := bot.order_id_counter + 1 }) := by
  simp only [place_market_order, log_order, marketOrderRec, hside, if_pos, hb, ite_true,
    ge_iff_le]

theorem market_buy_reject (bot : PaperTradingBot) (symbol side : String) (q p : ℚ)
    (hside : side.upper = "BUY") (hb : ¬ bot.balance ≥ q * p) :
    place_market_order bot symbol side q p =
      (marketOrderRec bot symbol side q p OrderStatus.REJECTED,
       MarketDiag.insufficientBalance,
       { balance := bot.balance,
         positions := bot.positions,
         orders := bot.orders ++ [marketOrderRec bot symbol side q p OrderStatus.REJECTED],
         order_id_counter := bot.order_id_counter + 1 }) := by
  simp only [place_market_order, log_order, marketOrderRec, hside, if_pos, hb, ite_true,
    ite_false, ge_iff_le]

theorem market_sell_fill (bot : PaperTradingBot) (symbol side : String) (q p : ℚ)
    (hside : side.upper ≠ "BUY") (hpos : bot.positions symbol ≥ q) :
    place_market_order bot symbol side q p =
      (marketOrderRec bot symbol side q p OrderStatus.FILLED,
       MarketDiag.sellExecuted,
       { balance := bot.balance + q * p,
         positions := dictSet bot.positions symbol (bot.positions symbol - q),
         orders := bot.orders ++ [marketOrderRec bot symbol side q p OrderStatus.FILLED],
         order_id_counter := bot.order_id_counter + 1 }) := by
  simp only [place_market_order, log_order, marketOrderRec, hside, if_neg, hpos, ite_true,
    ite_false, ge_iff_le]

theorem market_sell_reject (bot : PaperTradingBot) (symbol side : String) (q p : ℚ)
    (hside : side.upper ≠ "BUY") (hpos : ¬ bot.positions symbol ≥ q) :
    place_market_order bot symbol side q p =
      (marketOrderRec bot symbol side q p OrderStatus.REJECTED,
       MarketDiag.insufficientPosition,
       { balance := bot.balance,
         positions := bot.positions,
         orders := bot.orders ++ [marketOrderRec bot symbol side q p OrderStatus.REJECTED],
         order_id_counter := bot.order_id_counter + 1 }) := by
  simp only [place_market_order, log_order, marketOrderRec, hside, if_neg, hpos, ite_true,
    ite_false, ge_iff_le]

theorem limit_not_eligible (bot : PaperTradingBot) (symbol side : String) (q lp p : ℚ)
    (h : ¬ ((side.upper = "BUY" ∧ lp ≥ p) ∨ (side.upper = "SELL" ∧ lp ≤ p))) :
    place_limit_order bot symbol side q lp p =
      (limitOrderRec bot symbol side q lp p OrderStatus.NEW none,
       { balance := bot.balance,
         positions := bot.positions,
         orders := bot.orders ++ [limitOrderRec bot symbol side q lp p OrderStatus.NEW none],
         order_id_counter := bot.order_id_counter + 1 }) := by
  simp only [place_limit_order, log_order, limitOrderRec, h, ite_false, ge_iff_le]

theorem limit_buy_fill (bot : PaperTradingBot) (symbol side : String) (q lp p : ℚ)
    (hside : side.upper = "BUY") (he : lp ≥ p) (hb : bot.balance ≥ q * p) :
    place_limit_order bot symbol side q lp p =
      (limitOrderRec bot symbol side q lp p OrderStatus.FILLED (some p),
       { balance := bot.balance - q * p,
         positions := dictSet bot.positions symbol (bot.positions symbol + q),
         orders := bot.orders ++
           [limitOrderRec bot symbol side q lp p OrderStatus.FILLED (some p)],
         order_id_counter := bot.order_id_counter + 1 }) := by
  simp only [place_limit_order, log_order, limitOrderRec, hside, he, hb, true_and,
    true_or, ite_true, and_true, ge_iff_le, if_pos]

theorem limit_buy_reject (bot : PaperTradingBot) (symbol side : String) (q lp p : ℚ)
    (hside : side.upper = "BUY") (he : lp ≥ p) (hb : ¬ bot.balance ≥ q * p) :
    place_limit_order bot symbol side q lp p =
      (limitOrderRec bot symbol side q lp p OrderStatus.REJECTED (some p),
       { balance := bot.balance,
         positions := bot.positions,
         orders := bot.orders ++
           [limitOrderRec bot symbol side q lp p OrderStatus.REJECTED (some p)],
         order_id_counter := bot.order_id_counter + 1 }) := by
  simp only [place_limit_order, log_order, limitOrderRec, hside, he, hb, BUY_ne_SELL,
    true_and, true_or, false_and, and_false, ite_true, ite_false, ge_iff_le, if_pos,
    if_neg, not_false_eq_true, or_false]

theorem limit_sell_fill (bot : PaperTradingBot) (symbol side : String) (q lp p : ℚ)
    (hside : side.upper = "SELL") (he : lp ≤ p) (hpos : bot.positions symbol ≥ q) :
    place_limit_order bot symbol side q lp p =
      (limitOrderRec bot symbol side q lp p OrderStatus.FILLED (some p),
       { balance := bot.balance + q * p,
         positions := dictSet bot.positions symbol (bot.positions symbol - q),
         orders := bot.orders ++
           [limitOrderRec bot symbol side q lp p OrderStatus.FILLED (some p)],
         order_id_counter := bot.order_id_counter + 1 }) := by
  simp only [place_limit_order, log_order, limitOrderRec, hside, he, hpos, SELL_ne_BUY,
    true_and, or_true, false_and, and_false, ite_true, ite_false, ge_iff_le, if_pos,
    if_neg, not_false_eq_true, false_or, and_true]

theorem limit_sell_reject (bot : PaperTradingBot) (symbol side : String) (q lp p : ℚ)
    (hside : side.upper = "SELL") (he : lp ≤ p) (hpos : ¬ bot.positions symbol ≥ q) :
    place_limit_order bot symbol side q lp p =
      (limitOrderRec bot symbol side q lp p OrderStatus.REJECTED (some p),
       { balance := bot.balance,
         positions := bot.positions,
         orders := bot.orders ++
           [limitOrderRec bot symbol side q lp p OrderStatus.REJECTED (some p)],
         order_id_counter := bot.order_id_counter + 1 }) := by
  simp only [place_limit_order, log_order, limitOrderRec, hside, he, hpos, SELL_ne_BUY,
    true_and, or_true, false_and, and_false, ite_true, ite_false, ge_iff_le, if_pos,
    if_neg, not_false_eq_true, false_or, and_true]

theorem BUY_upper : ("BUY").upper = "BUY" := by decide

theorem SELL_upper : ("SELL").upper = "SELL" := by decide

theorem limit_eligible_reject (bot : PaperTradingBot) (symbol side : String) (q lp p : ℚ)
    (h : (side.upper = "BUY" ∧ lp ≥ p) ∨ (side.upper = "SELL" ∧ lp ≤ p))
    (h1 : ¬ (side.upper = "BUY" ∧ bot.balance ≥ q * p))
    (h2 : ¬ (side.upper = "SELL" ∧ bot.positions symbol ≥ q)) :
    place_limit_order bot symbol side q lp p =
      (limitOrderRec bot symbol side q lp p OrderStatus.REJECTED (some p),
       { balance := bot.balance,
         positions := bot.positions,
         orders := bot.orders ++
           [limitOrderRec bot symbol side q lp p OrderStatus.REJECTED (some p)],
         order_id_counter := bot.order_id_counter + 1 }) := by
  simp only [place_limit_order, log_order, limitOrderRec, h, h1, h2, ite_true, ite_false,
    if_pos, if_neg, not_false_eq_true, ge_iff_le]

/-- C1: a limit order whose price condition is not met is NOT returned as
REJECTED: the code leaves its status at `NEW`.  Concretely, a BUY limit at
90 against market price 100 comes back with status `NEW`. -/
theorem C1_counterexample :
    (place_limit_order PaperTradingBot.init "BTCUSDT" "BUY" 1 90 100).1.status = OrderStatus.NEW ∧
    (place_limit_order PaperTradingBot.init "BTCUSDT" "BUY" 1 90 100).1.status ≠ OrderStatus.REJECTED := by
  decide

/-- C1 (amended): a limit order whose price condition is not met is returned
with status `NEW` (left pending), with cash balance and positions unchanged;
only price-eligible limit orders are resolved to FILLED or REJECTED within
the call. -/
theorem C1_nonmarketable_limit_stays_NEW (bot : PaperTradingBot) (symbol side : String)
    (q lp p : ℚ)
    (h : ¬ ((side.upper = "BUY" ∧ lp ≥ p) ∨ (side.upper = "SELL" ∧ lp ≤ p))) :
    (place_limit_order bot symbol side q lp p).1.status = OrderStatus.NEW ∧
    (place_limit_order bot symbol side q lp p).2.balance = bot.balance ∧
    (place_limit_order bot symbol side q lp p).2.positions = bot.positions := by
  rw [limit_not_eligible bot symbol side q lp p h]
  exact ⟨rfl, rfl, rfl⟩

/-- C1 (witness): the amended statement instantiated at a SELL limit of 110
against market price 100. -/
theorem C1_nonmarketable_limit_stays_NEW_witness :
    (place_limit_order PaperTradingBot.init "ETHUSDT" "SELL" 2 110 100).1.status = OrderStatus.NEW ∧
    (place_limit_order PaperTradingBot.init "ETHUSDT" "SELL" 2 110 100).2.balance = PaperTradingBot.init.balance ∧
    (place_limit_order PaperTradingBot.init "ETHUSDT" "SELL" 2 110 100).2.positions = PaperTradingBot.init.positions :=
  C1_nonmarketable_limit_stays_NEW PaperTradingBot.init "ETHUSDT" "SELL" 2 110 100 (by decide)

/-- C3: the order processor performs no quantity validation.  A market BUY
with quantity -1 at price 100 from the initial state is FILLED, the cash
balance grows from 10000 to 10100 and the position goes to -1 — the ledger
IS mutated and no rejection occurs, contradicting the claimed
`InvalidQuantity` failure. -/
theorem C3_counterexample :
    (place_market_order PaperTradingBot.init "BTCUSDT" "BUY" (-1) 100).1.status = OrderStatus.FILLED ∧
    (place_market_order PaperTradingBot.init "BTCUSDT" "BUY" (-1) 100).2.2.balance = 10100 ∧
    (place_market_order PaperTradingBot.init "BTCUSDT" "BUY" (-1) 100).2.2.positions "BTCUSDT" = -1 := by
  rw [market_buy_fill PaperTradingBot.init "BTCUSDT" "BUY" (-1) 100 (by decide)
    (by norm_num [PaperTradingBot.init])]
  refine ⟨rfl, ?_, ?_⟩ <;> norm_num [PaperTradingBot.init, marketOrderRec, dictSet]

/-- C3 (amended): there is no quantity validation: a market BUY with
non-positive quantity (oracle price ≥ 0, balance ≥ 0) passes the
affordability check, is marked FILLED, and mutates the ledger — the balance
is debited by q·p (a credit when q < 0) and the position is increased by q. -/
theorem C3_no_quantity_validation (bot : PaperTradingBot) (symbol : String) (q p : ℚ)
    (hq : q ≤ 0) (hp : 0 ≤ p) (hb : 0 ≤ bot.balance) :
    (place_market_order bot symbol "BUY" q p).1.status = OrderStatus.FILLED ∧
    (place_market_order bot symbol "BUY" q p).2.2.balance = bot.balance - q * p ∧
    (place_market_order bot symbol "BUY" q p).2.2.positions symbol = bot.positions symbol + q := by
  have hcost : q * p ≤ 0 := mul_nonpos_of_nonpos_of_nonneg hq hp
  rw [market_buy_fill bot symbol "BUY" q p BUY_upper (le_trans hcost hb)]
  exact ⟨rfl, rfl, by simp [dictSet]⟩

/-- C3 (witness): the amended statement at quantity -1, price 100 from the
initial state. -/
theorem C3_no_quantity_validation_witness :
    (place_market_order PaperTradingBot.init "ETHUSDT" "BUY" (-1) 50).1.status = OrderStatus.FILLED ∧
    (place_market_order PaperTradingBot.init "ETHUSDT" "BUY" (-1) 50).2.2.balance =
      PaperTradingBot.init.balance - (-1) * 50 ∧
    (place_market_order PaperTradingBot.init "ETHUSDT" "BUY" (-1) 50).2.2.positions "ETHUSDT" =
      PaperTradingBot.init.positions "ETHUSDT" + (-1) :=
  C3_no_quantity_validation PaperTradingBot.init "ETHUSDT" (-1) 50 (by norm_num)
    (by norm_num) (by norm_num [PaperTradingBot.init])

/-- C7: a market BUY whose cost q·p exceeds the cash balance is REJECTED
with the insufficient-balance diagnostic, and neither the cash balance nor
any position is changed. -/
theorem C7_insufficient_funds (bot : PaperTradingBot) (symbol : String) (q p : ℚ)
    (h : q * p > bot.balance) :
    (place_market_order bot symbol "BUY" q p).1.status = OrderStatus.REJECTED ∧
    (place_market_order bot symbol "BUY" q p).2.1 = MarketDiag.insufficientBalance ∧
    (place_market_order bot symbol "BUY" q p).2.2.balance = bot.balance ∧
    (place_market_order bot symbol "BUY" q p).2.2.positions = bot.positions := by
  rw [market_buy_reject bot symbol "BUY" q p BUY_upper (not_le.mpr h)]
  exact ⟨rfl, rfl, rfl, rfl⟩

/-- C7 (witness): with balance 100, price 50 and quantity 3 (cost 150 > 100)
the order is rejected and the balance stays 100 with positions untouched. -/
theorem C7_insufficient_funds_witness :
    (place_market_order ⟨100, fun _ => 0, [], 1⟩ "BTCUSDT" "BUY" 3 50).1.status = OrderStatus.REJECTED ∧
    (place_market_order ⟨100, fun _ => 0, [], 1⟩ "BTCUSDT" "BUY" 3 50).2.1 = MarketDiag.insufficientBalance ∧
    (place_market_order ⟨100, fun _ => 0, [], 1⟩ "BTCUSDT" "BUY" 3 50).2.2.balance =
      (⟨100, fun _ => 0, [], 1⟩ : PaperTradingBot).balance ∧
    (place_market_order ⟨100, fun _ => 0, [], 1⟩ "BTCUSDT" "BUY" 3 50).2.2.positions =
      (⟨100, fun _ => 0, [], 1⟩ : PaperTradingBot).positions :=
  C7_insufficient_funds ⟨100, fun _ => 0, [], 1⟩ "BTCUSDT" 3 50 (by norm_num)

theorem eligible_buy_limit (side : String) (lp p : ℚ) (hside : side.upper = "BUY")
    (hel : (side.upper = "BUY" ∧ lp ≥ p) ∨ (side.upper = "SELL" ∧ lp ≤ p)) : lp ≥ p := by
  rcases hel with ⟨_, h⟩ | ⟨hs, _⟩
  · exact h
  · rw [hside] at hs
    exact absurd hs BUY_ne_SELL

theorem eligible_sell_limit (side : String) (lp p : ℚ) (hside : side.upper = "SELL")
    (hel : (side.upper = "BUY" ∧ lp ≥ p) ∨ (side.upper = "SELL" ∧ lp ≤ p)) : lp ≤ p := by
  rcases hel with ⟨hs, _⟩ | ⟨_, h⟩
  · rw [hside] at hs
    exact absurd hs SELL_ne_BUY
  · exact h

theorem stepBot_balance_nonneg (bot : PaperTradingBot) (r : Request)
    (hq : 0 < r.qty) (hp : 0 ≤ r.oracle) (hb : 0 ≤ bot.balance) :
    0 ≤ (stepBot bot r).balance := by
  cases r with
  | market symbol side q p =>
    simp only [Request.qty] at hq
    simp only [Request.oracle] at hp
    simp only [stepBot]
    by_cases hside : side.upper = "BUY"
    · by_cases hbal : bot.balance ≥ q * p
      · rw [market_buy_fill bot symbol side q p hside hbal]
        simpa using hbal
      · rw [market_buy_reject bot symbol side q p hside hbal]
        exact hb
    · by_cases hpos : bot.positions symbol ≥ q
      · rw [market_sell_fill bot symbol side q p hside hpos]
        have hc : 0 ≤ q * p := mul_nonneg hq.le hp
        show 0 ≤ bot.balance + q * p
        linarith
      · rw [market_sell_reject bot symbol side q p hside hpos]
        exact hb
  | limit symbol side q lp p =>
    simp only [Request.qty] at hq
    simp only [Request.oracle] at hp
    simp only [stepBot]
    by_cases hel : (side.upper = "BUY" ∧ lp ≥ p) ∨ (side.upper = "SELL" ∧ lp ≤ p)
    · by_cases h1 : side.upper = "BUY" ∧ bot.balance ≥ q * p
      · rw [limit_buy_fill bot symbol side q lp p h1.1
          (eligible_buy_limit side lp p h1.1 hel) h1.2]
        have := h1.2
        show 0 ≤ bot.balance - q * p
        linarith
      · by_cases h2 : side.upper = "SELL" ∧ bot.positions symbol ≥ q
        · rw [limit_sell_fill bot symbol side q lp p h2.1
            (eligible_sell_limit side lp p h2.1 hel) h2.2]
          have hc : 0 ≤ q * p := mul_nonneg hq.le hp
          show 0 ≤ bot.balance + q * p
          linarith
        · rw [limit_eligible_reject bot symbol side q lp p hel h1 h2]
          exact hb
    · rw [limit_not_eligible bot symbol side q lp p hel]
      exact hb

theorem runBot_balance_nonneg (reqs : List Request) :
    ∀ bot : PaperTradingBot, (∀ r ∈ reqs, 0 < r.qty ∧ 0 ≤ r.oracle) →
      0 ≤ bot.balance → 0 ≤ (runBot bot reqs).balance := by
  induction reqs with
  | nil => intro bot _ hb; exact hb
  | cons r rs ih =>
    intro bot h hb
    have hr := h r (List.mem_cons_self r rs)
    exact ih (stepBot bot r) (fun x hx => h x (List.mem_cons_of_mem r hx))
      (stepBot_balance_nonneg bot r hr.1 hr.2 hb)

/-- C2: the balance non-negativity invariant FAILS for arbitrary
quantities: from the initial state, a single market SELL with quantity
-101 at price 100 passes the position check (0 ≥ -101) and credits
-10100, driving the cash balance to -100 < 0. -/
theorem C2_counterexample :
    (stepBot PaperTradingBot.init (Request.market "BTCUSDT" "SELL" (-101) 100)).balance < 0 := by
  simp only [stepBot]
  rw [market_sell_fill PaperTradingBot.init "BTCUSDT" "SELL" (-101) 100 (by decide)
    (by norm_num [PaperTradingBot.init])]
  norm_num [PaperTradingBot.init]

/-- C2 (amended): for every sequence `pre ++ suf` of orders whose
quantities are positive and whose oracle prices are non-negative, the cash
balance is ≥ 0 after the orders in `pre` — that is, after every processed
order of the sequence — starting from the initial balance. -/
theorem C2_balance_nonneg (pre suf : List Request)
    (h : ∀ r ∈ pre ++ suf, 0 < r.qty ∧ 0 ≤ r.oracle) :
    0 ≤ (runBot PaperTradingBot.init pre).balance :=
  runBot_balance_nonneg pre PaperTradingBot.init
    (fun r hr => h r (List.mem_append.mpr (Or.inl hr)))
    (by norm_num [PaperTradingBot.init])

/-- C2 (witness): midway through a buy-then-sell sequence from the initial
state the balance is non-negative. -/
theorem C2_balance_nonneg_witness :
    0 ≤ (runBot PaperTradingBot.init [Request.market "BTCUSDT" "BUY" 1 100]).balance :=
  C2_balance_nonneg [Request.market "BTCUSDT" "BUY" 1 100]
    [Request.limit "BTCUSDT" "SELL" 1 90 100] (by decide)

theorem dictSet_nonneg (m : String → ℚ) (k : String) (v : ℚ)
    (hm : ∀ s, 0 ≤ m s) (hv : 0 ≤ v) : ∀ s, 0 ≤ dictSet m k v s := by
  intro s
  unfold dictSet
  split
  · exact hv
  · exact hm s

theorem stepBot_positions_nonneg (bot : PaperTradingBot) (r : Request)
    (hq : 0 < r.qty) (hpos : ∀ s, 0 ≤ bot.positions s) :
    ∀ s, 0 ≤ (stepBot bot r).positions s := by
  cases r with
  | market symbol side q p =>
    simp only [Request.qty] at hq
    simp only [stepBot]
    by_cases hside : side.upper = "BUY"
    · by_cases hbal : bot.balance ≥ q * p
      · rw [market_buy_fill bot symbol side q p hside hbal]
        exact dictSet_nonneg _ _ _ hpos (by have := hpos symbol; linarith)
      · rw [market_buy_reject bot symbol side q p hside hbal]
        exact hpos
    · by_cases hp2 : bot.positions symbol ≥ q
      · rw [market_sell_fill bot symbol side q p hside hp2]
        exact dictSet_nonneg _ _ _ hpos (by linarith)
      · rw [market_sell_reject bot symbol side q p hside hp2]
        exact hpos
  | limit symbol side q lp p =>
    simp only [Request.qty] at hq
    simp only [stepBot]
    by_cases hel : (side.upper = "BUY" ∧ lp ≥ p) ∨ (side.upper = "SELL" ∧ lp ≤ p)
    · by_cases h1 : side.upper = "BUY" ∧ bot.balance ≥ q * p
      · rw [limit_buy_fill bot symbol side q lp p h1.1
          (eligible_buy_limit side lp p h1.1 hel) h1.2]
        exact dictSet_nonneg _ _ _ hpos (by have := hpos symbol; linarith)
      · by_cases h2 : side.upper = "SELL" ∧ bot.positions symbol ≥ q
        · rw [limit_sell_fill bot symbol side q lp p h2.1
            (eligible_sell_limit side lp p h2.1 hel) h2.2]
          exact dictSet_nonneg _ _ _ hpos (by have := h2.2; linarith)
        · rw [limit_eligible_reject bot symbol side q lp p hel h1 h2]
          exact hpos
    · rw [limit_not_eligible bot symbol side q lp p hel]
      exact hpos

theorem runBot_positions_nonneg (reqs : List Request) :
    ∀ bot : PaperTradingBot, (∀ r ∈ reqs, 0 < r.qty) →
      (∀ s, 0 ≤ bot.positions s) → ∀ s, 0 ≤ (runBot bot reqs).positions s := by
  induction reqs with
  | nil => intro bot _ hpos; exact hpos
  | cons r rs ih =>
    intro bot h hpos
    exact ih (stepBot bot r) (fun x hx => h x (List.mem_cons_of_mem r hx))
      (stepBot_positions_nonneg bot r (h r (List.mem_cons_self r rs)) hpos)

/-- C5: position non-negativity FAILS for arbitrary quantities: a market
BUY with quantity -2 from the initial state leaves the position at -2 < 0
after the processed order. -/
theorem C5_counterexample :
    (stepBot PaperTradingBot.init (Request.market "ETHUSDT" "BUY" (-2) 50)).positions "ETHUSDT" < 0 := by
  simp only [stepBot]
  rw [market_buy_fill PaperTradingBot.init "ETHUSDT" "BUY" (-2) 50 (by decide)
    (by norm_num [PaperTradingBot.init])]
  norm_num [PaperTradingBot.init, dictSet]

/-- C5 (amended): for every sequence `pre ++ suf` of orders whose
quantities are positive, every quantity stored in the positions map is
≥ 0 after the orders in `pre` — that is, after every processed order of
the sequence. -/
theorem C5_positions_nonneg (pre suf : List Request)
    (h : ∀ r ∈ pre ++ suf, 0 < r.qty) :
    ∀ s, 0 ≤ (runBot PaperTradingBot.init pre).positions s :=
  runBot_positions_nonneg pre PaperTradingBot.init
    (fun r hr => h r (List.mem_append.mpr (Or.inl hr)))
    (fun _ => by norm_num [PaperTradingBot.init])

/-- C5 (witness): the "ETHUSDT" position is non-negative midway through a
buy-then-sell sequence. -/
theorem C5_positions_nonneg_witness :
    0 ≤ (runBot PaperTradingBot.init [Request.market "ETHUSDT" "BUY" 2 50]).positions "ETHUSDT" :=
  C5_positions_nonneg [Request.market "ETHUSDT" "BUY" 2 50]
    [Request.market "ETHUSDT" "SELL" 1 60] (by decide) "ETHUSDT"

theorem stepBot_log (bot : PaperTradingBot) (r : Request) :
    (stepBot bot r).orders.map Order.orderId
      = bot.orders.map Order.orderId ++ [bot.order_id_counter] ∧
    (stepBot bot r).order_id_counter = bot.order_id_counter + 1 := by
  cases r with
  | market symbol side q p =>
    simp only [stepBot]
    by_cases hside : side.upper = "BUY"
    · by_cases hbal : bot.balance ≥ q * p
      · rw [market_buy_fill bot symbol side q p hside hbal]
        simp [marketOrderRec]
      · rw [market_buy_reject bot symbol side q p hside hbal]
        simp [marketOrderRec]
    · by_cases hpos : bot.positions symbol ≥ q
      · rw [market_sell_fill bot symbol side q p hside hpos]
        simp [marketOrderRec]
      · rw [market_sell_reject bot symbol side q p hside hpos]
        simp [marketOrderRec]
  | limit symbol side q lp p =>
    simp only [stepBot]
    by_cases hel : (side.upper = "BUY" ∧ lp ≥ p) ∨ (side.upper = "SELL" ∧ lp ≤ p)
    · by_cases h1 : side.upper = "BUY" ∧ bot.balance ≥ q * p
      · rw [limit_buy_fill bot symbol side q lp p h1.1
          (eligible_buy_limit side lp p h1.1 hel) h1.2]
        simp [limitOrderRec]
      · by_cases h2 : side.upper = "SELL" ∧ bot.positions symbol ≥ q
        · rw [limit_sell_fill bot symbol side q lp p h2.1
            (eligible_sell_limit side lp p h2.1 hel) h2.2]
          simp [limitOrderRec]
        · rw [limit_eligible_reject bot symbol side q lp p hel h1 h2]
          simp [limitOrderRec]
    · rw [limit_not_eligible bot symbol side q lp p hel]
      simp [limitOrderRec]

theorem runBot_ids (reqs : List Request) :
    ∀ bot : PaperTradingBot,
      (runBot bot reqs).orders.map Order.orderId
        = bot.orders.map Order.orderId ++ List.range' bot.order_id_counter reqs.length ∧
      (runBot bot reqs).order_id_counter = bot.order_id_counter + reqs.length := by
  induction reqs with
  | nil => intro bot; simp [runBot]
  | cons r rs ih =>
    intro bot
    obtain ⟨hs1, hs2⟩ := stepBot_log bot r
    obtain ⟨h1, h2⟩ := ih (stepBot bot r)
    constructor
    · show (runBot (stepBot bot r) rs).orders.map Order.orderId = _
      rw [h1, hs1, hs2, List.length_cons, List.range'_succ, List.append_assoc]
      simp
    · show (runBot (stepBot bot r) rs).order_id_counter = _
      rw [h2, hs2, List.length_cons]
      omega

/-- C6: starting from the initial state, after any sequence of submissions
(market or limit, filled, rejected or left NEW) the order log holds exactly
one entry per submission, whose identifiers are 1, 2, …, n in submission
order, and the counter equals n + 1 — identifiers advance by exactly 1 per
submission, are consumed also by unfilled orders, and are never reused or
decremented. -/
theorem C6_identifier_monotonicity (reqs : List Request) :
    (runBot PaperTradingBot.init reqs).orders.map Order.orderId
      = List.range' 1 reqs.length ∧
    (runBot PaperTradingBot.init reqs).order_id_counter = 1 + reqs.length := by
  have h := runBot_ids reqs PaperTradingBot.init
  simpa [PaperTradingBot.init] using h

/-- C4: a BUY limit order is FILLED iff its limit price lp ≥ oracle price p
and the balance covers q·p; a SELL limit is FILLED iff lp ≤ p and the held
position covers q; and every limit fill records execution price p (not lp)
and debits/credits q·p computed from p. -/
theorem C4_limit_gating (bot : PaperTradingBot) (symbol : String) (q lp p : ℚ) :
    ((place_limit_order bot symbol "BUY" q lp p).1.status = OrderStatus.FILLED ↔
      lp ≥ p ∧ bot.balance ≥ q * p) ∧
    ((place_limit_order bot symbol "SELL" q lp p).1.status = OrderStatus.FILLED ↔
      lp ≤ p ∧ bot.positions symbol ≥ q) ∧
    (lp ≥ p → bot.balance ≥ q * p →
      (place_limit_order bot symbol "BUY" q lp p).1.filled_price = some p ∧
      (place_limit_order bot symbol "BUY" q lp p).2.balance = bot.balance - q * p ∧
      (place_limit_order bot symbol "BUY" q lp p).2.positions symbol
        = bot.positions symbol + q) ∧
    (lp ≤ p → bot.positions symbol ≥ q →
      (place_limit_order bot symbol "SELL" q lp p).1.filled_price = some p ∧
      (place_limit_order bot symbol "SELL" q lp p).2.balance = bot.balance + q * p ∧
      (place_limit_order bot symbol "SELL" q lp p).2.positions symbol
        = bot.positions symbol - q) := by
  refine ⟨⟨fun hf => ?_, fun h => ?_⟩, ⟨fun hf => ?_, fun h => ?_⟩,
    fun he hb => ?_, fun he hp2 => ?_⟩
  · by_cases he : lp ≥ p
    · by_cases hb : bot.balance ≥ q * p
      · exact ⟨he, hb⟩
      · rw [limit_eligible_reject bot symbol "BUY" q lp p (Or.inl ⟨BUY_upper, he⟩)
          (fun hc => hb hc.2) (fun hc => BUY_ne_SELL (BUY_upper.symm.trans hc.1))] at hf
        exact absurd hf (by simp [limitOrderRec])
    · rw [limit_not_eligible bot symbol "BUY" q lp p ?_] at hf
      · exact absurd hf (by simp [limitOrderRec])
      · rintro (⟨_, h⟩ | ⟨hs, _⟩)
        · exact he h
        · exact BUY_ne_SELL (BUY_upper.symm.trans hs)
  · rw [limit_buy_fill bot symbol "BUY" q lp p BUY_upper h.1 h.2]
    rfl
  · by_cases he : lp ≤ p
    · by_cases hp2 : bot.positions symbol ≥ q
      · exact ⟨he, hp2⟩
      · rw [limit_eligible_reject bot symbol "SELL" q lp p (Or.inr ⟨SELL_upper, he⟩)
          (fun hc => SELL_ne_BUY (SELL_upper.symm.trans hc.1)) (fun hc => hp2 hc.2)] at hf
        exact absurd hf (by simp [limitOrderRec])
    · rw [limit_not_eligible bot symbol "SELL" q lp p ?_] at hf
      · exact absurd hf (by simp [limitOrderRec])
      · rintro (⟨hs, _⟩ | ⟨_, h⟩)
        · exact SELL_ne_BUY (SELL_upper.symm.trans hs)
        · exact he h
  · rw [limit_sell_fill bot symbol "SELL" q lp p SELL_upper h.1 h.2]
    rfl
  · rw [limit_buy_fill bot symbol "BUY" q lp p BUY_upper he hb]
    exact ⟨rfl, rfl, by simp [dictSet]⟩
  · rw [limit_sell_fill bot symbol "SELL" q lp p SELL_upper he hp2]
    exact ⟨rfl, rfl, by simp [dictSet]⟩

/-- C4 (witness): a BUY limit at 110 against market price 100 from the
initial state fills at execution price 100 and debits 1·100 from the
balance. -/
theorem C4_limit_gating_witness :
    (place_limit_order PaperTradingBot.init "BTCUSDT" "BUY" 1 110 100).1.filled_price = some 100 ∧
    (place_limit_order PaperTradingBot.init "BTCUSDT" "BUY" 1 110 100).2.balance
      = PaperTradingBot.init.balance - 1 * 100 :=
  ⟨((C4_limit_gating PaperTradingBot.init "BTCUSDT" 1 110 100).2.2.1 (by norm_num)
      (by norm_num [PaperTradingBot.init])).1,
   ((C4_limit_gating PaperTradingBot.init "BTCUSDT" 1 110 100).2.2.1 (by norm_num)
      (by norm_num [PaperTradingBot.init])).2.1⟩

/-- C8: buying q and then selling q of the same symbol at an unchanged
oracle price p returns the cash balance exactly to its pre-trade value
(exact rational arithmetic; q > 0, non-negative held position, affordable
buy). -/
theorem C8_round_trip (bot : PaperTradingBot) (symbol : String) (q p : ℚ)
    (hq : 0 < q) (hpos : 0 ≤ bot.positions symbol) (hb : q * p ≤ bot.balance) :
    ((place_market_order
        (place_market_order bot symbol "BUY" q p).2.2 symbol "SELL" q p).2.2).balance
      = bot.balance := by
  rw [market_buy_fill bot symbol "BUY" q p BUY_upper hb]
  rw [market_sell_fill _ symbol "SELL" q p (fun h => SELL_ne_BUY (SELL_upper.symm.trans h))
    (by simp only [dictSet, if_pos, ge_iff_le]; linarith)]
  show bot.balance - q * p + q * p = bot.balance
  ring

/-- C8 (witness): buy 2 then sell 2 at price 100 from the initial state
restores the balance to 10000. -/
theorem C8_round_trip_witness :
    ((place_market_order
        (place_market_order PaperTradingBot.init "BTCUSDT" "BUY" 2 100).2.2
        "BTCUSDT" "SELL" 2 100).2.2).balance = PaperTradingBot.init.balance :=
  C8_round_trip PaperTradingBot.init "BTCUSDT" 2 100 (by norm_num)
    (by norm_num [PaperTradingBot.init]) (by norm_num [PaperTradingBot.init])

/-- C9: positions are NOT keyed by the upper-cased symbol. Two BUY orders
whose symbols differ only in case ("btcusdt" then "BTCUSDT") land in two
different position entries (1 each, instead of one entry at 2), even though
both order records carry the normalized symbol "BTCUSDT". -/
theorem C9_counterexample :
    (runBot PaperTradingBot.init [Request.market "btcusdt" "BUY" 1 100,
        Request.market "BTCUSDT" "BUY" 1 100]).positions "btcusdt" = 1 ∧
    (runBot PaperTradingBot.init [Request.market "btcusdt" "BUY" 1 100,
        Request.market "BTCUSDT" "BUY" 1 100]).positions "BTCUSDT" = 1 ∧
    (runBot PaperTradingBot.init [Request.market "btcusdt" "BUY" 1 100,
        Request.market "BTCUSDT" "BUY" 1 100]).orders.map Order.symbol
      = ["BTCUSDT", "BTCUSDT"] := by
  simp only [runBot, stepBot]
  rw [market_buy_fill PaperTradingBot.init "btcusdt" "BUY" 1 100 (by decide)
    (by norm_num [PaperTradingBot.init])]
  rw [market_buy_fill _ "BTCUSDT" "BUY" 1 100 (by decide)
    (by norm_num [PaperTradingBot.init, dictSet])]
  refine ⟨?_, ?_, ?_⟩
  · norm_num +decide [PaperTradingBot.init, dictSet]
  · norm_num +decide [PaperTradingBot.init, dictSet]
  · simp +decide [PaperTradingBot.init, marketOrderRec, String.upper]

/-- C9 (amended): a filled market BUY records its position adjustment under
the submitted symbol string as-is (not case-normalized), while the order
record stores the upper-cased symbol; entries under other keys are
untouched, so orders whose symbols differ only in case affect different
position entries. -/
theorem C9_positions_raw_key (bot : PaperTradingBot) (symbol : String) (q p : ℚ)
    (hb : bot.balance ≥ q * p) :
    (place_market_order bot symbol "BUY" q p).1.symbol = symbol.upper ∧
    (place_market_order bot symbol "BUY" q p).2.2.positions symbol
      = bot.positions symbol + q ∧
    (∀ s, s ≠ symbol →
      (place_market_order bot symbol "BUY" q p).2.2.positions s = bot.positions s) := by
  rw [market_buy_fill bot symbol "BUY" q p BUY_upper hb]
  refine ⟨rfl, by simp [dictSet], fun s hs => ?_⟩
  simp [dictSet, hs]

/-- C9 (witness): the amended statement at the lower-case symbol "btcusdt":
the order record says "BTCUSDT" but the position sits under "btcusdt". -/
theorem C9_positions_raw_key_witness :
    (place_market_order PaperTradingBot.init "btcusdt" "BUY" 3 100).1.symbol
      = ("btcusdt").upper ∧
    (place_market_order PaperTradingBot.init "btcusdt" "BUY" 3 100).2.2.positions "btcusdt"
      = PaperTradingBot.init.positions "btcusdt" + 3 ∧
    (∀ s, s ≠ "btcusdt" →
      (place_market_order PaperTradingBot.init "btcusdt" "BUY" 3 100).2.2.positions s
        = PaperTradingBot.init.positions s) :=
  C9_positions_raw_key PaperTradingBot.init "btcusdt" 3 100
    (by norm_num [PaperTradingBot.init])

/-- C10: a market order whose upper-cased side is neither "BUY" nor "SELL"
is not rejected as invalid: it is evaluated through the SELL branch — if
the held position covers q it is FILLED, the proceeds q·p are credited and
the position decreased by q; otherwise it is rejected for insufficient
position. -/
theorem C10_unknown_side (bot : PaperTradingBot) (symbol side : String) (q p : ℚ)
    (h1 : side.upper ≠ "BUY") (h2 : side.upper ≠ "SELL") :
    (bot.positions symbol ≥ q →
      (place_market_order bot symbol side q p).1.status = OrderStatus.FILLED ∧
      (place_market_order bot symbol side q p).2.1 = MarketDiag.sellExecuted ∧
      (place_market_order bot symbol side q p).2.2.balance = bot.balance + q * p ∧
      (place_market_order bot symbol side q p).2.2.positions symbol
        = bot.positions symbol - q) ∧
    (¬ bot.positions symbol ≥ q →
      (place_market_order bot symbol side q p).1.status = OrderStatus.REJECTED ∧
      (place_market_order bot symbol side q p).2.1 = MarketDiag.insufficientPosition ∧
      (place_market_order bot symbol side q p).2.2.balance = bot.balance ∧
      (place_market_order bot symbol side q p).2.2.positions = bot.positions) := by
  constructor
  · intro hpos
    rw [market_sell_fill bot symbol side q p h1 hpos]
    exact ⟨rfl, rfl, rfl, by simp [dictSet]⟩
  · intro hpos
    rw [market_sell_reject bot symbol side q p h1 hpos]
    exact ⟨rfl, rfl, rfl, rfl⟩

/-- C10 (witness): side "HOLD" with a held position of 5 ≥ 2 goes through
the SELL branch, fills, credits 2·100 and drops the position to 3. -/
theorem C10_unknown_side_witness :
    (place_market_order ⟨0, fun _ => 5, [], 1⟩ "BTCUSDT" "HOLD" 2 100).1.status
      = OrderStatus.FILLED ∧
    (place_market_order ⟨0, fun _ => 5, [], 1⟩ "BTCUSDT" "HOLD" 2 100).2.1
      = MarketDiag.sellExecuted ∧
    (place_market_order ⟨0, fun _ => 5, [], 1⟩ "BTCUSDT" "HOLD" 2 100).2.2.balance
      = (⟨0, fun _ => 5, [], 1⟩ : PaperTradingBot).balance + 2 * 100 ∧
    (place_market_order ⟨0, fun _ => 5, [], 1⟩ "BTCUSDT" "HOLD" 2 100).2.2.positions "BTCUSDT"
      = (⟨0, fun _ => 5, [], 1⟩ : PaperTradingBot).positions "BTCUSDT" - 2 :=
  (C10_unknown_side ⟨0, fun _ => 5, [], 1⟩ "BTCUSDT" "HOLD" 2 100 (by decide) (by decide)).1
    (by norm_num)

end PaperTrading
